import Mathlib

/-!
Verification of the siftin-py lead-capture backend against its
natural-language specification.

The Python sources under src/api are shallowly embedded as executable Lean
definitions.  Database-backed code (src/api/database.py) is modelled as pure
state passing over an explicit store; SQLite semantics that the code relies
on (AUTOINCREMENT row ids, the UNIQUE(run_id, lead_id) constraint, the
foreign-key pragma default) are made explicit in the model.  Fallible code
returns Except; Python dict rows become structures.
-/

namespace Siftin

/-! ## Data model of src/api/database.py

The runs table (init_database, lines 28-41): id INTEGER PRIMARY KEY
AUTOINCREMENT plus label, url, criteria, total_leads, selected_leads,
status, error_message.  Timestamp columns are irrelevant to the claims and
omitted.
-/

/-- A row of the runs table. -/
structure RunRow where
  id : Nat
  run_label : String
  linkedin_url : String
  ai_criteria : String
  total_leads : Nat
  selected_leads : Nat
  status : String
  error_message : Option String
deriving Repr, DecidableEq

/-- A row of the run_leads table (init_database, lines 55-74). -/
structure LeadRow where
  id : Nat
  run_id : Nat
  lead_id : String
  name : String
  title : String
  company : String
  location : String
  match_score : Int
  description : String
  linkedin_url : String
  email : Option String
  profile_image : Option String
  is_selected : Bool
deriving Repr, DecidableEq

/-- The persistent store: both tables plus the AUTOINCREMENT counters
(sqlite hands out strictly increasing rowids; nextRunId and nextLeadId
model the next value of each sequence). -/
structure DBState where
  runs : List RunRow
  run_leads : List LeadRow
  nextRunId : Nat
  nextLeadId : Nat
deriving Repr, DecidableEq

/-- The empty store produced by init_database on a fresh file.
AUTOINCREMENT ids start at 1. -/
def DBState.empty : DBState := ⟨[], [], 1, 1⟩

/-- A lead dictionary as passed to create_run.  The Python code reads each
field with lead.get(key, default); the structure holds the already
defaulted values ('' for missing text fields, 0 for match_score, None for
email and profile_image). -/
structure LeadInput where
  id : String
  name : String
  title : String
  company : String
  location : String
  match_score : Int
  description : String
  linkedin_url : String
  email : Option String
  profile_image : Option String
deriving Repr, DecidableEq

/-- A lead input whose every field is the lead.get default; used to build
concrete instances. -/
def LeadInput.blank (i : String) : LeadInput :=
  ⟨i, "", "", "", "", 0, "", "", none, none⟩

/-- Whether the run_leads table already holds a row with the given
(run_id, lead_id) pair — the key of the UNIQUE constraint of
init_database line 72. -/
def hasLeadKey (st : DBState) (rid : Nat) (k : String) : Bool :=
  st.run_leads.any (fun rl => rl.run_id = rid ∧ rl.lead_id = k)

/-- The run_leads row built by one iteration of the lead-insert loop of
create_run (lines 130-152): the run id, the lead dict's fields, and
is_selected = 1 exactly when the lead's id occurs in selected_lead_ids
(line 131). -/
def leadRowOf (rid : Nat) (selIds : List String) (rowId : Nat)
    (lead : LeadInput) : LeadRow :=
  ⟨rowId, rid, lead.id, lead.name, lead.title, lead.company,
    lead.location, lead.match_score, lead.description,
    lead.linkedin_url, lead.email, lead.profile_image,
    selIds.contains lead.id⟩

/-- One INSERT INTO run_leads (create_run, lines 133-152).  The
UNIQUE(run_id, lead_id) constraint (init_database, line 72) makes the
insert fail with an IntegrityError when a row with the same
(run_id, lead_id) pair already exists. -/
def insertRunLead (rid : Nat) (selIds : List String) (st : DBState)
    (lead : LeadInput) : Except String DBState :=
  if hasLeadKey st rid lead.id then
    .error "UNIQUE constraint failed: run_leads.run_id, run_leads.lead_id"
  else
    .ok { st with
      run_leads := st.run_leads ++ [leadRowOf rid selIds st.nextLeadId lead],
      nextLeadId := st.nextLeadId + 1 }

/-- The store right after the INSERT INTO runs of create_run lines
121-126: the new runs row (total_leads = len(leads), selected_leads =
len(selected_lead_ids)) appended and the run-id sequence advanced;
cursor.lastrowid is the new row's id, st.nextRunId. -/
def createRunInserted (run_label linkedin_url ai_criteria : String)
    (leads : List LeadInput) (selected_lead_ids : List String)
    (status : String) (error_message : Option String)
    (st : DBState) : DBState :=
  { st with
    runs := st.runs ++
      [⟨st.nextRunId, run_label, linkedin_url, ai_criteria, leads.length,
        selected_lead_ids.length, status, error_message⟩],
    nextRunId := st.nextRunId + 1 }

/-- create_run (database.py lines 92-162): insert the runs row (lines
121-124), then insert every lead; on any failure roll back (line 159) and
re-raise (line 160).  The pair returned is (result, final state); on
error the final state is the state at entry (rollback). -/
def create_run (run_label linkedin_url ai_criteria : String)
    (leads : List LeadInput) (selected_lead_ids : List String)
    (status : String) (error_message : Option String)
    (st : DBState) : Except String Nat × DBState :=
  match leads.foldlM (insertRunLead st.nextRunId selected_lead_ids)
      (createRunInserted run_label linkedin_url ai_criteria leads
        selected_lead_ids status error_message st) with
  | .ok st2 => (.ok st.nextRunId, st2)
  | .error e => (.error e, st)

/-- create_failed_run (database.py lines 165-191): create_run with no
leads, no selections and status 'failed'. -/
def create_failed_run (run_label linkedin_url ai_criteria error_message : String)
    (st : DBState) : Except String Nat × DBState :=
  create_run run_label linkedin_url ai_criteria [] [] "failed"
    (some error_message) st

/-- get_run_leads (database.py lines 245-265) with selected_only = False:
all run_leads rows with the given run_id. -/
def get_run_leads (run_id : Nat) (st : DBState) : List LeadRow :=
  st.run_leads.filter (fun rl => rl.run_id = run_id)

/-- Whether the connections handed out by get_db_connection (database.py
lines 15-19) enforce foreign-key constraints.  SQLite only enforces
FOREIGN KEY clauses (including ON DELETE CASCADE) on connections that have
executed PRAGMA foreign_keys = ON; Python's sqlite3 module leaves the
pragma at its default OFF, and get_db_connection never issues it, so the
value is false. -/
def foreignKeysEnforced : Bool := false

/-- delete_run (database.py lines 312-326): DELETE FROM runs WHERE id = ?.
The run_leads table is touched only if the connection enforces the
ON DELETE CASCADE clause of init_database line 71.  Returns
(rowcount > 0, new state). -/
def delete_run (run_id : Nat) (st : DBState) : Bool × DBState :=
  let deleted := st.runs.any (fun r => r.id = run_id)
  let runs1 := st.runs.filter (fun r => ¬ r.id = run_id)
  let leads1 :=
    if foreignKeysEnforced then
      st.run_leads.filter (fun rl => ¬ rl.run_id = run_id)
    else
      st.run_leads
  (deleted, { st with runs := runs1, run_leads := leads1 })

/-- The first UPDATE of update_run_selections (lines 275-279): clear
is_selected on every lead of the run. -/
def clearSelected (run_id : Nat) (rls : List LeadRow) : List LeadRow :=
  rls.map (fun rl =>
    if rl.run_id = run_id then { rl with is_selected := false } else rl)

/-- The second UPDATE of update_run_selections (lines 282-288), executed
only for a non-empty id list: set is_selected on the run's leads whose
lead_id occurs in selected_lead_ids. -/
def markSelected (run_id : Nat) (selected_lead_ids : List String)
    (rls : List LeadRow) : List LeadRow :=
  if selected_lead_ids.isEmpty then rls
  else rls.map (fun rl =>
    if rl.run_id = run_id ∧ selected_lead_ids.contains rl.lead_id then
      { rl with is_selected := true }
    else rl)

/-- The third UPDATE of update_run_selections (lines 291-296): set the
runs row's selected_leads column to len(selected_lead_ids). -/
def setSelectedCount (run_id : Nat) (n : Nat) (runs : List RunRow) : List RunRow :=
  runs.map (fun r =>
    if r.id = run_id then { r with selected_leads := n } else r)

/-- update_run_selections (database.py lines 268-309): clear is_selected
for the run's leads, set it for leads whose lead_id is in
selected_lead_ids, then set the runs row's selected_leads column to
len(selected_lead_ids).  Returns (rowcount of the last UPDATE > 0, new
state). -/
def update_run_selections (run_id : Nat) (selected_lead_ids : List String)
    (st : DBState) : Bool × DBState :=
  (st.runs.any (fun r => r.id = run_id),
    { st with
      runs := setSelectedCount run_id selected_lead_ids.length st.runs,
      run_leads :=
        markSelected run_id selected_lead_ids
          (clearSelected run_id st.run_leads) })

/-! ## Operation sequences over the store (claim C3) -/

/-- One store operation among those named by the invariant claim. -/
inductive DbOp where
  | createRun (run_label linkedin_url ai_criteria : String)
      (leads : List LeadInput) (selected_lead_ids : List String)
      (status : String) (error_message : Option String)
  | createFailedRun (run_label linkedin_url ai_criteria error_message : String)
  | updateRunSelections (run_id : Nat) (selected_lead_ids : List String)
deriving Repr

/-- Apply one operation to the store, keeping whatever state the operation
leaves behind (on a create_run failure that is the rolled-back entry
state). -/
def applyOp (st : DBState) (op : DbOp) : DBState :=
  match op with
  | .createRun l u c leads sel status err =>
      (create_run l u c leads sel status err st).2
  | .createFailedRun l u c err => (create_failed_run l u c err st).2
  | .updateRunSelections rid sel => (update_run_selections rid sel st).2

/-- Apply a sequence of operations starting from a store. -/
def applyOps (st : DBState) (ops : List DbOp) : DBState :=
  ops.foldl applyOp st

/-- The run-level invariant of the spec: selected_leads never exceeds
total_leads, and a failed run has no leads — neither counted in
total_leads nor present as run_leads rows. -/
def RunsInvariant (st : DBState) : Prop :=
  ∀ r ∈ st.runs, r.selected_leads ≤ r.total_leads ∧
    (r.status = "failed" →
      r.total_leads = 0 ∧ ∀ rl ∈ st.run_leads, rl.run_id ≠ r.id)

/-- AUTOINCREMENT bookkeeping: every stored id is below the next id to be
handed out.  Established by init_database on the empty store and kept by
every operation. -/
def FreshIds (st : DBState) : Prop :=
  (∀ r ∈ st.runs, r.id < st.nextRunId) ∧
    (∀ rl ∈ st.run_leads, rl.run_id < st.nextRunId)

/-- The precondition under which an operation keeps RunsInvariant: the
caller does not hand create_run more selected ids than leads (and only
empty lead lists for failed runs), and does not hand
update_run_selections more selected ids than the run's total_leads. -/
def GoodOp (st : DBState) : DbOp → Prop
  | .createRun _ _ _ leads sel status _ =>
      sel.length ≤ leads.length ∧ (status = "failed" → leads = [])
  | .createFailedRun _ _ _ _ => True
  | .updateRunSelections rid sel =>
      ∀ r ∈ st.runs, r.id = rid → sel.length ≤ r.total_leads

/-- GoodOp along a whole sequence, each operation judged in the state the
previous ones produced. -/
def GoodOps : DBState → List DbOp → Prop
  | _, [] => True
  | st, op :: ops => GoodOp st op ∧ GoodOps (applyOp st op) ops

instance (st : DBState) (op : DbOp) : Decidable (GoodOp st op) :=
  match op with
  | .createRun _ _ _ leads sel status _ =>
      inferInstanceAs (Decidable
        (sel.length ≤ leads.length ∧ (status = "failed" → leads = [])))
  | .createFailedRun _ _ _ _ => inferInstanceAs (Decidable True)
  | .updateRunSelections rid sel =>
      inferInstanceAs (Decidable
        (∀ r ∈ st.runs, r.id = rid → sel.length ≤ r.total_leads))

instance instDecidableGoodOps : (st : DBState) → (ops : List DbOp) →
    Decidable (GoodOps st ops)
  | _, [] => .isTrue trivial
  | st, op :: ops =>
    have : Decidable (GoodOps (applyOp st op) ops) :=
      instDecidableGoodOps (applyOp st op) ops
    inferInstanceAs (Decidable (GoodOp st op ∧ GoodOps (applyOp st op) ops))

instance (st : DBState) : Decidable (RunsInvariant st) := by
  unfold RunsInvariant
  infer_instance

instance (st : DBState) : Decidable (FreshIds st) := by
  unfold FreshIds
  infer_instance

/-! ## String helpers shared by the embeddings

Python's `needle in haystack`, str.replace with a one-character pattern,
and urllib percent decoding, re-implemented over character lists. -/

/-- Python's substring test `needle in haystack`. -/
def containsSub (haystack needle : String) : Bool :=
  haystack.toList.tails.any (fun t => needle.toList.isPrefixOf t)

/-- Python str.replace for a single-character pattern and a
single-character replacement. -/
def replaceChar (a b : Char) (s : String) : String :=
  String.mk (s.toList.map (fun c => if c = a then b else c))

/-- Value of a hexadecimal digit, if the character is one. -/
def hexVal (c : Char) : Option Nat :=
  if '0' ≤ c ∧ c ≤ '9' then some (c.toNat - '0'.toNat)
  else if 'a' ≤ c ∧ c ≤ 'f' then some (c.toNat - 'a'.toNat + 10)
  else if 'A' ≤ c ∧ c ≤ 'F' then some (c.toNat - 'A'.toNat + 10)
  else none

/-- Python str.lower() on ASCII letters, character by character. -/
def asciiLowerChar (c : Char) : Char :=
  if 'A' ≤ c ∧ c ≤ 'Z' then Char.ofNat (c.toNat + 32) else c

/-- Python str.lower() (ASCII range). -/
def asciiLower (s : String) : String :=
  String.mk (s.toList.map asciiLowerChar)

/-- Python str.split(sep) for a one-character separator: the chunks
between occurrences, empty chunks included. -/
def splitCharGo (c : Char) : List Char → List (List Char)
  | [] => [[]]
  | x :: xs =>
    if x = c then [] :: splitCharGo c xs
    else
      match splitCharGo c xs with
      | h :: t => (x :: h) :: t
      | [] => [[x]]

/-- One chunk between '%' separators, as urllib.parse.unquote rebuilds it:
when the chunk opens with two hex digits they encode a byte, otherwise the
'%' is kept verbatim. -/
def unquoteChunk (chunk : List Char) : List Char :=
  match chunk with
  | h :: l :: rest =>
    match hexVal h, hexVal l with
    | some a, some b => Char.ofNat (16 * a + b) :: rest
    | _, _ => '%' :: chunk
  | _ => '%' :: chunk

/-- Percent decoding following the algorithm of urllib.parse.unquote:
split on '%' and re-decode the head of every later chunk.  Multi-byte
UTF-8 sequences are modelled byte-wise, which agrees with urllib on
ASCII. -/
def percentDecode (s : List Char) : List Char :=
  match splitCharGo '%' s with
  | [] => []
  | first :: chunks => first ++ (chunks.map unquoteChunk).flatten

/-- splitCharGo lifted to strings. -/
def splitChar (c : Char) (s : String) : List String :=
  (splitCharGo c s.toList).map String.mk

/-- Split a character list at the first occurrence of a separator
sequence: the part before and the part after, when the separator occurs. -/
def splitOnFirstSeq (needle : List Char) : List Char → Option (List Char × List Char)
  | [] => if needle.isEmpty then some ([], []) else none
  | x :: xs =>
    if needle.isPrefixOf (x :: xs) then some ([], (x :: xs).drop needle.length)
    else (splitOnFirstSeq needle xs).map (fun p => (x :: p.1, p.2))

/-- urllib.parse.unquote on a string. -/
def unquote (s : String) : String :=
  String.mk (percentDecode s.toList)

/-- Query-value decoding used by parse_qsl: '+' becomes a space, then
percent decoding. -/
def unquotePlus (s : String) : String :=
  unquote (replaceChar '+' ' ' s)

/-! ## src/api/linkedin_auth_check.py: the cookie fast path (claim C4) -/

/-- A row of the Firefox moz_cookies table as fetched by
check_linkedin_cookies_fast (name, value, expiry); expiry is NULL-able. -/
structure CookieRow where
  name : String
  value : String
  expiry : Option Int
deriving Repr, DecidableEq

/-- Result of the fast check: a dict with logged_in = True, a dict with
logged_in = False, or None (inconclusive, falls through to the
browser-based slow path). -/
inductive FastCheck where
  | loggedIn
  | notLoggedIn
  | inconclusive
deriving Repr, DecidableEq

/-- Expiry normalisation (linkedin_auth_check.py lines 150-151): values
above 10^15 are microseconds and are divided by 10^6; the division is
Python float division, modelled exactly on rationals. -/
def normalizeExpiry (e : Int) : ℚ :=
  if e > 1000000000000000 then (e : ℚ) / 1000000 else (e : ℚ)

/-- The per-cookie test of lines 147-167 applied to an li_at cookie: a
missing or zero expiry (falsy in Python) means a session cookie, accepted
outright; otherwise the cookie is accepted when its normalised expiry
exceeds now - 86400 (one day before the current time). -/
def liAtAccepted (now : ℚ) (expiry : Option Int) : Bool :=
  match expiry with
  | none => true
  | some e => if e = 0 then true else normalizeExpiry e > now - 86400

/-- The cookie loop of check_linkedin_cookies_fast lines 143-171: scan the
fetched rows; the first accepted li_at cookie returns logged_in = True; if
some li_at cookie was seen but none accepted, return None. -/
def cookieLoop (now : ℚ) : List CookieRow → Bool → FastCheck
  | [], liAtFound => if liAtFound then .inconclusive else .notLoggedIn
  | c :: rest, liAtFound =>
    if c.name = "li_at" then
      if liAtAccepted now c.expiry then .loggedIn else cookieLoop now rest true
    else cookieLoop now rest liAtFound

/-- check_linkedin_cookies_fast (linkedin_auth_check.py lines 101-184)
given the rows fetched from the profile cookie store and the current time
(time.time(), seconds): no rows at all means logged_in = False (lines
130-137); otherwise the cookie loop decides. -/
def check_linkedin_cookies_fast (now : ℚ) (cookies : List CookieRow) :
    FastCheck :=
  if cookies.isEmpty then .notLoggedIn
  else cookieLoop now cookies false

/-! ## src/api/brightdata_api_client.py: get_collection_data (claim C5) -/

/-- One item of a decoded list response body: a JSON object, carrying the
value of its 'error' field when it has one and an opaque payload
otherwise, or a non-object item. -/
inductive RespItem where
  | obj (error : Option String) (payload : String)
  | nonObj (payload : String)
deriving Repr, DecidableEq

/-- Python `isinstance(item, dict) and 'error' in item`. -/
def RespItem.hasError : RespItem → Bool
  | .obj (some _) _ => true
  | _ => false

/-- Python `isinstance(item, dict) and 'error' not in item` (the
valid_items filter of line 189). -/
def RespItem.isValid : RespItem → Bool
  | .obj none _ => true
  | _ => false

/-- The lowercase keyword scan of get_collection_data (lines 159-172 and
196-204): an authentication keyword yields the authentication message, the
rate keywords the rate-limit message, anything else the generic collection
error. -/
def classifyError (msg : String) : String :=
  let low := asciiLower msg
  let authKeywords := ["login", "auth", "authentication", "unauthorized",
    "forbidden", "401", "403", "redirected to login",
    "authentication required"]
  if authKeywords.any (fun k => containsSub low k) then
    "BrightData Authentication Error: " ++ msg ++
      ". Your BrightData collector needs LinkedIn authentication configured. Go to your BrightData dashboard → Collector Settings → LinkedIn Authentication, and add your LinkedIn session cookies or credentials."
  else if containsSub low "rate" ∨ containsSub low "limit" then
    "BrightData Rate Limit Error: " ++ msg ++
      ". Please wait a moment and try again, or contact your BrightData Account Manager to increase your rate limit."
  else
    "BrightData Collection Error: " ++ msg

/-- The list-shaped processing of get_collection_data (lines 186-210):
split into error items and valid items; all-errors raises (classified by
the first error message), otherwise the valid items are returned. -/
def processListResponse (data : List RespItem) : Except String (List RespItem) :=
  let errorItems := data.filter RespItem.hasError
  let validItems := data.filter RespItem.isValid
  if ¬ errorItems.isEmpty ∧ validItems.isEmpty then
    let firstError := match errorItems.head? with
      | some (.obj (some m) _) => m
      | _ => ""
    .error (classifyError firstError)
  else if ¬ validItems.isEmpty then .ok validItems
  else .ok []

/-- get_collection_data (brightdata_api_client.py lines 124-227) on a
decoded list response body.  The early check of lines 150-172 fires first:
when the first item of a non-empty list is an object with an 'error'
field, the classified exception is raised before any filtering.  Only then
does the list processing of lines 186-210 run. -/
def get_collection_data (data : List RespItem) :
    Except String (List RespItem) :=
  match data with
  | .obj (some msg) _ :: _ => .error (classifyError msg)
  | _ => processListResponse data

/-! ## src/api/brightdata_api_client.py: the shared request interval
(claim C6) -/

/-- The two escalation sites for the module-level _min_request_interval. -/
inductive RateStep where
  | trigger
  | polling
deriving Repr, DecidableEq

/-- trigger_collector line 108: _min_request_interval =
min(_min_request_interval * 2, 10.0). -/
def escalateTrigger (x : ℚ) : ℚ := min (x * 2) 10

/-- search_linkedin_profiles line 309: _min_request_interval =
min(_min_request_interval * 3, 30.0). -/
def escalatePolling (x : ℚ) : ℚ := min (x * 3) 30

/-- Apply one escalation to the shared interval. -/
def applyRateStep (x : ℚ) : RateStep → ℚ
  | .trigger => escalateTrigger x
  | .polling => escalatePolling x

/-- The interval after a sequence of rate-limit escalations, starting from
the initial 2.0 seconds (line 20). -/
def runRateSteps (steps : List RateStep) : ℚ :=
  steps.foldl applyRateStep 2

/-! ## src/api/main.py: the find-leads endpoint (claim C7) -/

/-- The FindLeadsResponse model (main.py lines 64-69): leads, total,
requires_login, login_url, errors. -/
structure FindLeadsResponse where
  leads : List LeadInput
  total : Nat
  requires_login : Bool
  login_url : Option String
  errors : Option (List String)
deriving Repr, DecidableEq

/-- What the awaited scrape_linkedin_search_async call does: return a lead
list, or raise with a message (an authentication failure raises a message
mentioning authentication). -/
inductive ScrapeOutcome where
  | ok (leads : List LeadInput)
  | raised (msg : String)
deriving Repr, DecidableEq

/-- The no-results diagnostic appended at main.py line 506. -/
def noLeadsMsg : String :=
  "No leads found. Make sure you're logged into LinkedIn in your Firefox profile, or provide a valid Firefox profile path via FIREFOX_PROFILE_PATH environment variable."

/-- find_leads (main.py lines 456-548).  The URL must contain
'/search/results/people' (line 469).  The scraper call is wrapped in its
own try (lines 493-513): a raise is turned into a 'Scraper error: ...'
entry and an empty lead list.  Each lead is then converted to the Lead
model, dropping leads whose conversion raises (modelled by the convertOk
oracle).  Every return site passes requires_login = False and
login_url = None. -/
def find_leads (linkedin_url : String) (outcome : ScrapeOutcome)
    (convertOk : LeadInput → Bool) : FindLeadsResponse :=
  if linkedin_url = "" ∨ ¬ containsSub linkedin_url "/search/results/people" then
    { leads := [], total := 0, requires_login := false, login_url := none,
      errors := some ["Invalid LinkedIn URL. Please provide a LinkedIn search results URL like: https://www.linkedin.com/search/results/people/?keywords=..."] }
  else
    match outcome with
    | .ok leads =>
        let errors := if leads.isEmpty then [noLeadsMsg] else []
        let leadModels := leads.filter convertOk
        { leads := leadModels, total := leadModels.length,
          requires_login := false, login_url := none,
          errors := if errors.isEmpty then none else some errors }
    | .raised msg =>
        { leads := [], total := 0, requires_login := false,
          login_url := none,
          errors := some ["Scraper error: " ++ msg] }

/-! ## src/api/main.py: extract_keywords_from_url (claim C8) -/

/-- Split a character list at the first occurrence of a character: the
part before, and the part after when the character occurs. -/
def splitOnFirstChar (c : Char) : List Char → List Char × Option (List Char)
  | [] => ([], none)
  | x :: xs =>
    if x = c then ([], some xs)
    else
      match splitOnFirstChar c xs with
      | (before, after) => (x :: before, after)

/-- splitOnFirstChar lifted to strings. -/
def splitAtFirst (s : String) (c : Char) : String × Option String :=
  match splitOnFirstChar c s.toList with
  | (before, after) => (String.mk before, after.map String.mk)

/-- The path and query components of urllib.parse.urlparse for http-style
URLs: the fragment (after the first '#') is dropped, the query is what
follows the first '?' of the remainder, and when a scheme-netloc prelude
'scheme://host' is present the path starts at the first '/' after '://'
(empty when there is none). -/
def urlparsePathQuery (url : String) : String × String :=
  let (noFrag, _) := splitAtFirst url '#'
  let (beforeQ, qOpt) := splitAtFirst noFrag '?'
  let query := qOpt.getD ""
  let path :=
    match splitOnFirstSeq (String.toList "://") beforeQ.toList with
    | some (_, rest) =>
      match splitOnFirstChar '/' rest with
      | (_, some afterSlash) => String.mk ('/' :: afterSlash)
      | (_, none) => ""
    | none => beforeQ
  (path, query)

/-- urllib.parse.parse_qsl with default arguments on the query component:
chunks split on '&'; empty chunks, chunks without '=', and chunks with an
empty value are skipped; names and values are plus-and-percent decoded. -/
def parseQsl (query : String) : List (String × String) :=
  (splitChar '&' query).filterMap (fun chunk =>
    if chunk = "" then none
    else
      match splitOnFirstChar '=' chunk.toList with
      | (_, none) => none
      | (name, some value) =>
        if value.isEmpty then none
        else some (unquotePlus (String.mk name), unquotePlus (String.mk value)))

/-- params.get('keywords') of main.py line 151: the list of values bound
to the given key by parse_qs. -/
def getParam (query key : String) : List String :=
  (parseQsl query).filterMap (fun nv =>
    if nv.1 = key then some nv.2 else none)

/-- Scan path parts for the first extractable segment. -/
def pathKeywordsGo : List String → String
  | [] => ""
  | p :: rest =>
    if p ≠ "" ∧ p ≠ "search" ∧ p ≠ "results" ∧ p ≠ "people" ∧
        (unquote p).length > 2 then
      replaceChar '_' ' ' (replaceChar '-' ' ' (unquote p))
    else pathKeywordsGo rest

/-- The path fallback of extract_keywords_from_url (main.py lines
154-163): the first path part that is non-empty, none of 'search',
'results', 'people', and whose percent-decoded form is longer than 2
characters, with '-' and '_' turned into spaces. -/
def pathKeywords (path : String) : String :=
  pathKeywordsGo (splitChar '/' path)

/-- extract_keywords_from_url (main.py lines 145-168): the first value of
the keywords query parameter; when absent, the first extractable path
segment; when both are missing, the literal 'LinkedIn Search'. -/
def extract_keywords_from_url (linkedin_url : String) : String :=
  let (path, query) := urlparsePathQuery linkedin_url
  let fromQuery := (getParam query "keywords").headD ""
  let keywords := if fromQuery = "" then pathKeywords path else fromQuery
  if keywords = "" then "LinkedIn Search" else keywords

/-! ## src/api/extract_names_quick.py: CLI argument parsing (claim C9) -/

/-- The three values main assembles from the arguments after the URL
(extract_names_quick.py lines 42-59). -/
structure QuickArgs where
  max_results : Int
  max_pages : Int
  save_files : Bool
deriving Repr, DecidableEq

/-- Value of a decimal digit, if the character is one. -/
def digitVal (c : Char) : Option Nat :=
  if '0' ≤ c ∧ c ≤ '9' then some (c.toNat - '0'.toNat) else none

/-- A non-empty all-digit character list as a number. -/
def parseDigits (ds : List Char) : Option Nat :=
  if ds.isEmpty then none
  else
    ds.foldl (fun acc c => acc.bind (fun a => (digitVal c).map (fun d => a * 10 + d)))
      (some 0)

/-- Python int(arg) on a decimal token: optional sign followed by at least
one digit (surrounding whitespace and underscore separators are not
modelled); None when int() raises ValueError. -/
def tryParseInt (s : String) : Option Int :=
  match s.toList with
  | '-' :: ds => (parseDigits ds).map (fun n => -(n : Int))
  | '+' :: ds => (parseDigits ds).map (fun n => (n : Int))
  | ds => (parseDigits ds).map (fun n => (n : Int))

/-- One iteration of the argument loop (lines 47-59): '--save' and
'--export' set save_files; any other token is parsed as an integer, and a
parsed integer is stored into max_results while max_results still equals
50, otherwise into max_pages while max_pages still equals 1, otherwise
dropped; unparsable tokens are skipped. -/
def quickArgStep (st : QuickArgs) (arg : String) : QuickArgs :=
  if arg = "--save" ∨ arg = "--export" then { st with save_files := true }
  else
    match tryParseInt arg with
    | some n =>
      if st.max_results = 50 then { st with max_results := n }
      else if st.max_pages = 1 then { st with max_pages := n }
      else st
    | none => st

/-- The argument parse of main over sys.argv[2:], starting from the
defaults max_results = 50, max_pages = 1, save_files = False. -/
def parseQuickArgs (args : List String) : QuickArgs :=
  args.foldl quickArgStep ⟨50, 1, false⟩

/-! ## src/api/linkedin_scraper.py: scrape_linkedin_search (claim C10)

The scraper drives a browser; each interaction with the driver is an
external effect that either yields a value or raises.  The embedding takes
an environment of outcomes for every such interaction and follows the
control flow of scrape_linkedin_search (lines 88-313) exactly: the
geckodriver service is acquired before the try block (line 146), the
driver is created as the first statement inside it (line 152), the outer
except Exception (lines 302-306) returns the leads collected so far, and
the finally block (lines 308-313) quits the driver whenever one was
created. -/

/-- One search-result card as the per-result extraction of lines 217-291
sees it: the profile image lookup may fail (caught, None), the anchor
hrefs, and the four text lookups, each None when its find_element raises
(name failure skips the card, the others default to ''). -/
structure RawResult where
  pfp : Option String
  hrefs : List String
  name : Option String
  subtitle : Option String
  secondary_subtitle : Option String
  summary : Option String
deriving Repr, DecidableEq

/-- The profile-URL scan of lines 229-240: the first href containing
'/in/', else ''. -/
def extractProfileUrl (hrefs : List String) : String :=
  match hrefs.find? (fun h => containsSub h "/in/") with
  | some h => h
  | none => ""

/-- The per-result extraction of lines 217-291 as a partial parse: cards
without a profile URL (line 243) or whose name lookup raises (line 250)
are skipped, every other failure defaults to its field default. -/
def parseResult (r : RawResult) : Option LeadInput :=
  let url := extractProfileUrl r.hrefs
  if url = "" then none
  else
    match r.name with
    | none => none
    | some nm =>
      some ⟨"", nm, r.subtitle.getD "", r.secondary_subtitle.getD "", "",
        85, r.summary.getD "", url, none, r.pfp⟩

/-- What one iteration of the page loop finds after navigation: the
results-list wait times out (caught at lines 203-211, page skipped), the
find_elements call of line 214 raises (uncaught, reaches the outer
except), or a list of result cards. -/
inductive ContentOutcome where
  | noResultsList
  | findFail (e : String)
  | results (rs : List RawResult)
deriving Repr

/-- The environment of external outcomes for one scrape run. -/
structure ScrapeEnv where
  serviceOutcome : Except String Unit
  driverOutcome : Except String Unit
  setupOutcome : Except String Unit
  pagination : Option Int
  navOutcome : Nat → Except String Unit
  content : Nat → ContentOutcome

/-- The inner result loop of lines 217-291: append parsed cards while the
accumulated count stays below max_results. -/
def appendResults (maxResults : Nat) (acc : List LeadInput)
    (rs : List RawResult) : List LeadInput :=
  acc ++ (rs.filterMap parseResult).take (maxResults - acc.length)

/-- The page loop of lines 186-294.  fuel is the iteration count of
range(total_pages); page is current_page.  The Bool records whether the
loop was aborted by an exception reaching the outer handler (navigation
failure for pages past the first, or the find_elements raise of line
214), in which case the accumulator holds the partial result returned at
line 306. -/
def scrapePages (env : ScrapeEnv) (maxResults : Nat) :
    Nat → Nat → List LeadInput → List LeadInput × Bool
  | 0, _, acc => (acc, false)
  | fuel + 1, page, acc =>
    if maxResults ≤ acc.length then (acc, false)
    else
      match (if 1 < page then env.navOutcome page else .ok ()) with
      | .error _ => (acc, true)
      | .ok _ =>
        match env.content page with
        | .noResultsList => scrapePages env maxResults fuel (page + 1) acc
        | .findFail _ => (acc, true)
        | .results rs =>
          scrapePages env maxResults fuel (page + 1)
            (appendResults maxResults acc rs)

/-- The page-count computation of lines 169-182: min(last_page_number,
max_pages) when the pagination list was found, 1 when the lookup raised. -/
def totalPagesOf (pagination : Option Int) (maxPages : Nat) : Int :=
  match pagination with
  | some lastPage => min lastPage (maxPages : Int)
  | none => 1

/-- scrape_linkedin_search (linkedin_scraper.py lines 88-313).  The result
pair holds what the call does (return a list or propagate an exception)
and whether driver.quit was attempted in the finally block.  A service
acquisition failure happens before the try block and propagates; a driver
creation failure is caught by the outer except with driver still None (no
quit, people = [] returned); any later failure is caught with the partial
list returned and the driver quit; on success the collected people are
filtered to those with a linkedin_url (line 297; on the exception path the
filter of line 297 is not reached). -/
def scrape_linkedin_search (env : ScrapeEnv) (maxResults maxPages : Nat) :
    Except String (List LeadInput) × Bool :=
  match env.serviceOutcome with
  | .error e => (.error e, false)
  | .ok _ =>
    match env.driverOutcome with
    | .error _ => (.ok [], false)
    | .ok _ =>
      match env.setupOutcome with
      | .error _ => (.ok [], true)
      | .ok _ =>
        let pr := scrapePages env maxResults
          (totalPagesOf env.pagination maxPages).toNat 1 []
        if pr.2 then (.ok pr.1, true)
        else (.ok (pr.1.filter (fun p => p.linkedin_url ≠ "")), true)

/-! ## Theorems -/

/-- One escalation step keeps the interval at or below 30 seconds. -/
theorem applyRateStep_le_30 (x : ℚ) (s : RateStep) : applyRateStep x s ≤ 30 := by
  cases s
  · exact le_trans (min_le_right (x * 2) 10) (by norm_num)
  · exact min_le_right (x * 3) 30

/-- Folding escalation steps from any value at or below 30 stays at or
below 30. -/
theorem rate_foldl_le_30 (steps : List RateStep) :
    ∀ x : ℚ, x ≤ 30 → steps.foldl applyRateStep x ≤ 30 := by
  induction steps with
  | nil => intro x h; exact h
  | cons s rest ih =>
      intro x _
      exact ih (applyRateStep x s) (applyRateStep_le_30 x s)

/-- C6 (confirmed).  The shared minimum request interval starts at 2.0
seconds and, under any sequence of rate-limit escalations, never exceeds
30 seconds; after any escalation taken on the trigger path (doubling,
capped at 10.0 in trigger_collector line 108) it is at most 10 seconds,
and after any escalation taken on the polling path (tripling, capped at
30.0 in search_linkedin_profiles line 309) it is at most 30 seconds. -/
theorem min_request_interval_bounded (steps : List RateStep) :
    runRateSteps steps ≤ 30 ∧
      (∀ pre : List RateStep, runRateSteps (pre ++ [RateStep.trigger]) ≤ 10) ∧
      (∀ pre : List RateStep, runRateSteps (pre ++ [RateStep.polling]) ≤ 30) := by
  refine ⟨rate_foldl_le_30 steps 2 (by norm_num), ?_, ?_⟩
  · intro pre
    have h : runRateSteps (pre ++ [RateStep.trigger])
        = applyRateStep (runRateSteps pre) RateStep.trigger := by
      simp [runRateSteps, List.foldl_append]
    rw [h]
    exact min_le_right _ 10
  · intro pre
    have h : runRateSteps (pre ++ [RateStep.polling])
        = applyRateStep (runRateSteps pre) RateStep.polling := by
      simp [runRateSteps, List.foldl_append]
    rw [h]
    exact min_le_right _ 30

/-- C2 (code bug).  The schema declares run_leads rows ON DELETE CASCADE
(init_database line 71) and the spec promises that deleting a run removes
its leads, but get_db_connection never enables SQLite foreign-key
enforcement, so delete_run removes only the runs row: on a store holding
run 1 with one lead, delete_run 1 reports success and empties runs, yet
the lead row survives and get_run_leads still returns it. -/
theorem delete_run_keeps_run_leads :
    (delete_run 1 ⟨[⟨1, "run", "url", "crit", 1, 0, "success", none⟩],
        [⟨1, 1, "lead-1", "Ada", "", "", "", 0, "", "https://x/in/ada",
          none, none, false⟩], 2, 2⟩).1 = true ∧
    (delete_run 1 ⟨[⟨1, "run", "url", "crit", 1, 0, "success", none⟩],
        [⟨1, 1, "lead-1", "Ada", "", "", "", 0, "", "https://x/in/ada",
          none, none, false⟩], 2, 2⟩).2.runs = [] ∧
    get_run_leads 1 (delete_run 1 ⟨[⟨1, "run", "url", "crit", 1, 0, "success", none⟩],
        [⟨1, 1, "lead-1", "Ada", "", "", "", 0, "", "https://x/in/ada",
          none, none, false⟩], 2, 2⟩).2
      = [⟨1, 1, "lead-1", "Ada", "", "", "", 0, "", "https://x/in/ada",
          none, none, false⟩] := by
  refine ⟨rfl, rfl, rfl⟩

/-- C9 (code bug).  The argument loop's integer assignment is guarded by
the current values still equalling their defaults, not by position: with
arguments 50 then 5 the second integer overwrites max_results (which
still equals its default 50) and max_pages keeps its default 1, against
the positional reading documented in the code's own comments.  With a
first integer other than 50 the positional behaviour holds, and
non-integer tokens other than the flags are skipped. -/
theorem quick_args_value_guard_bug :
    parseQuickArgs ["50", "5"] = ⟨5, 1, false⟩ ∧
    parseQuickArgs ["100", "5"] = ⟨100, 5, false⟩ ∧
    parseQuickArgs ["60", "abc", "7", "--save"] = ⟨60, 7, true⟩ := by
  refine ⟨rfl, rfl, rfl⟩

/-- C5 counterexample.  A list response whose first item carries an
'error' field is fatal even though a later item is error-free: the early
check of get_collection_data lines 150-172 raises before the filtering
logic runs, so the error-free item is not returned. -/
theorem get_collection_data_first_error_cex :
    get_collection_data [RespItem.obj (some "boom") "", RespItem.obj none "alice"]
      = .error "BrightData Collection Error: boom" := by
  rfl

/-- C5 (corrected).  When the first item of the list response is an
error-free object, get_collection_data returns exactly the error-free
items and no exception is raised, whatever mix of error and non-error
items follows; the mixed-list filtering of the claim holds only under
that condition on the first item. -/
theorem get_collection_data_filters_valid_head (p : String) (rest : List RespItem) :
    get_collection_data (RespItem.obj none p :: rest)
      = .ok ((RespItem.obj none p :: rest).filter RespItem.isValid) := by
  have h1 : get_collection_data (RespItem.obj none p :: rest)
      = processListResponse (RespItem.obj none p :: rest) := rfl
  rw [h1]
  unfold processListResponse
  simp [List.filter_cons, RespItem.isValid, RespItem.hasError]

/-- C7 counterexample.  An authentication failure raised by the scraper
is reported through the errors array only: at a valid search URL with the
scrape raising an authentication error, the response carries
requires_login = False and no login URL, where the claim requires
requires_login = true plus a remediation URL. -/
theorem find_leads_auth_error_cex :
    find_leads "https://www.linkedin.com/search/results/people/?keywords=x"
        (ScrapeOutcome.raised "BrightData Authentication Error: redirected to login")
        (fun _ => true)
      = { leads := [], total := 0, requires_login := false, login_url := none,
          errors := some ["Scraper error: BrightData Authentication Error: redirected to login"] } := by
  rfl

/-- C7 (corrected).  Every return path of find_leads sets
requires_login = False and login_url = None — authentication errors are
distinguishable only through the errors array, never through the
requires_login flag. -/
theorem find_leads_never_requires_login (url : String) (outcome : ScrapeOutcome)
    (convertOk : LeadInput → Bool) :
    (find_leads url outcome convertOk).requires_login = false ∧
    (find_leads url outcome convertOk).login_url = none := by
  unfold find_leads
  split
  · exact ⟨rfl, rfl⟩
  · cases outcome <;> simp

/-- Unfolding equation for the cookie loop on a cons cell. -/
theorem cookieLoop_cons (now : ℚ) (c : CookieRow) (rest : List CookieRow) (b : Bool) :
    cookieLoop now (c :: rest) b =
      if c.name = "li_at" then
        (if liAtAccepted now c.expiry then FastCheck.loggedIn
         else cookieLoop now rest true)
      else cookieLoop now rest b := rfl

/-- The cookie loop reports logged-in as soon as some li_at row passes
the per-cookie test, whatever the found-flag. -/
theorem cookieLoop_loggedIn (now : ℚ) :
    ∀ (l : List CookieRow) (b : Bool),
      (∃ c ∈ l, c.name = "li_at" ∧ liAtAccepted now c.expiry = true) →
      cookieLoop now l b = .loggedIn := by
  intro l
  induction l with
  | nil =>
      intro b h
      rcases h with ⟨c, hc, _⟩
      cases hc
  | cons c rest ih =>
      intro b h
      rcases h with ⟨d, hd, hname, hacc⟩
      by_cases hc : c.name = "li_at"
      · by_cases ha : liAtAccepted now c.expiry = true
        · rw [cookieLoop_cons, if_pos hc, if_pos ha]
        · rcases List.mem_cons.mp hd with rfl | hdrest
          · exact absurd hacc ha
          · rw [cookieLoop_cons, if_pos hc, if_neg ha]
            exact ih true ⟨d, hdrest, hname, hacc⟩
      · rcases List.mem_cons.mp hd with rfl | hdrest
        · exact absurd hname hc
        · rw [cookieLoop_cons, if_neg hc]
          exact ih b ⟨d, hdrest, hname, hacc⟩

/-- When every li_at row fails the per-cookie test, the loop ends
inconclusive as soon as at least one li_at row exists (or the flag is
already set). -/
theorem cookieLoop_inconclusive (now : ℚ) :
    ∀ (l : List CookieRow) (b : Bool),
      (∀ c ∈ l, c.name = "li_at" → liAtAccepted now c.expiry = false) →
      ((∃ c ∈ l, c.name = "li_at") ∨ b = true) →
      cookieLoop now l b = .inconclusive := by
  intro l
  induction l with
  | nil =>
      intro b _ hex
      rcases hex with ⟨c, hc, _⟩ | rfl
      · cases hc
      · rfl
  | cons c rest ih =>
      intro b hall hex
      by_cases hc : c.name = "li_at"
      · have hacc := hall c (List.mem_cons_self c rest) hc
        rw [cookieLoop_cons, if_pos hc, if_neg (by simp [hacc])]
        exact ih true (fun d hd => hall d (List.mem_cons_of_mem c hd)) (Or.inr rfl)
      · rw [cookieLoop_cons, if_neg hc]
        refine ih b (fun d hd => hall d (List.mem_cons_of_mem c hd)) ?_
        rcases hex with ⟨d, hd, hdname⟩ | rfl
        · rcases List.mem_cons.mp hd with rfl | h
          · exact absurd hdname hc
          · exact Or.inl ⟨d, h, hdname⟩
        · exact Or.inr rfl

/-- C4 counterexample.  An li_at cookie that expired about three hours
before the current time is apparently expired, so the claim requires the
fast path to be inconclusive; the code instead returns a definitive
logged-in, because its comparison is against one day in the past
(time.time() - 86400), not one day in the future. -/
theorem cookies_fast_expired_cex :
    check_linkedin_cookies_fast 1700000000
        [⟨"li_at", "tok", some 1699990000⟩] = .loggedIn := by
  have hacc : liAtAccepted 1700000000 (some 1699990000) = true := by
    simp [liAtAccepted, normalizeExpiry]
    norm_num
  simp [check_linkedin_cookies_fast, cookieLoop, hacc]

/-- C4 (corrected).  The fast path returns a definitive logged-in exactly
when some li_at cookie passes the per-cookie test, whose acceptance
threshold is one day in the PAST: no expiry (or a zero expiry) always
passes, and a numeric expiry passes iff its normalised value (divided by
10^6 when above 10^15) exceeds now - 86400 — so a cookie expired less
than one day ago still yields logged-in, and only li_at cookies all
expired more than one day ago make the fast path inconclusive. -/
theorem cookies_fast_threshold (now : ℚ) (cookies : List CookieRow) :
    ((∃ c ∈ cookies, c.name = "li_at" ∧ liAtAccepted now c.expiry = true) →
      check_linkedin_cookies_fast now cookies = .loggedIn) ∧
    ((∀ c ∈ cookies, c.name = "li_at" → liAtAccepted now c.expiry = false) →
      (∃ c ∈ cookies, c.name = "li_at") →
      check_linkedin_cookies_fast now cookies = .inconclusive) ∧
    liAtAccepted now none = true ∧
    (∀ e : Int, e ≠ 0 →
      (liAtAccepted now (some e) = true ↔ normalizeExpiry e > now - 86400)) := by
  refine ⟨?_, ?_, rfl, ?_⟩
  · rintro ⟨c, hc, hname, hacc⟩
    have hne : ¬ cookies.isEmpty := by
      cases cookies with
      | nil => cases hc
      | cons x xs => simp
    rw [check_linkedin_cookies_fast, if_neg (by simpa using hne)]
    exact cookieLoop_loggedIn now cookies false ⟨c, hc, hname, hacc⟩
  · rintro hall ⟨c, hc, hname⟩
    have hne : ¬ cookies.isEmpty := by
      cases cookies with
      | nil => cases hc
      | cons x xs => simp
    rw [check_linkedin_cookies_fast, if_neg (by simpa using hne)]
    exact cookieLoop_inconclusive now cookies false hall (Or.inl ⟨c, hc, hname⟩)
  · intro e he
    simp [liAtAccepted, he]

/-- Witness for C4: a session li_at cookie (no expiry) makes the fast
path definitively logged-in. -/
theorem cookies_fast_threshold_witness :
    check_linkedin_cookies_fast 1700000000 [⟨"li_at", "tok", none⟩] = .loggedIn :=
  (cookies_fast_threshold 1700000000 [⟨"li_at", "tok", none⟩]).1
    ⟨⟨"li_at", "tok", none⟩, List.mem_singleton.mpr rfl, rfl, rfl⟩

/-- C8 (confirmed).  On the people-search URL with
keywords=senior+sales+manager the extractor returns the URL-decoded query
value 'senior sales manager', and any URL whose query yields no keywords
binding and whose path holds no extractable segment falls back to the
literal 'LinkedIn Search'. -/
theorem extract_keywords_from_url_spec :
    extract_keywords_from_url
        "https://www.linkedin.com/search/results/people/?keywords=senior+sales+manager"
      = "senior sales manager" ∧
    ∀ url : String,
      getParam (urlparsePathQuery url).2 "keywords" = [] →
      pathKeywords (urlparsePathQuery url).1 = "" →
      extract_keywords_from_url url = "LinkedIn Search" := by
  constructor
  · decide
  · intro url h1 h2
    unfold extract_keywords_from_url
    rcases hpq : urlparsePathQuery url with ⟨p, q⟩
    rw [hpq] at h1 h2
    simp only at h1 h2
    simp [h1, h2]

/-- Witness for C8: the bare people-search URL has no keywords parameter
and no extractable path segment, so the extractor falls back to
'LinkedIn Search'. -/
theorem extract_keywords_from_url_spec_witness :
    extract_keywords_from_url "https://www.linkedin.com/search/results/people/"
      = "LinkedIn Search" :=
  (extract_keywords_from_url_spec).2
    "https://www.linkedin.com/search/results/people/" (by decide) (by decide)

/-- Every run of the scraper either propagates exactly the geckodriver
acquisition failure or returns a lead list. -/
theorem scrape_shape (env : ScrapeEnv) (maxResults maxPages : Nat) :
    (∃ e, env.serviceOutcome = Except.error e ∧
      scrape_linkedin_search env maxResults maxPages = (Except.error e, false)) ∨
    ∃ leads, (scrape_linkedin_search env maxResults maxPages).1 = Except.ok leads := by
  unfold scrape_linkedin_search
  cases hs : env.serviceOutcome with
  | error e => exact Or.inl ⟨e, rfl, rfl⟩
  | ok u =>
    cases u
    right
    cases hd : env.driverOutcome with
    | error e => exact ⟨[], rfl⟩
    | ok u2 =>
      cases u2
      cases hst : env.setupOutcome with
      | error e => exact ⟨[], rfl⟩
      | ok u3 =>
        cases u3
        by_cases hb : (scrapePages env maxResults
            (totalPagesOf env.pagination maxPages).toNat 1 []).2 = true
        · rw [if_pos hb]
          exact ⟨_, rfl⟩
        · rw [if_neg hb]
          exact ⟨_, rfl⟩

/-- Once service acquisition and driver creation succeed, the finally
block reaches driver.quit. -/
theorem scrape_quits (env : ScrapeEnv) (maxResults maxPages : Nat)
    (h : env.serviceOutcome = Except.ok ())
    (h2 : env.driverOutcome = Except.ok ()) :
    (scrape_linkedin_search env maxResults maxPages).2 = true := by
  unfold scrape_linkedin_search
  rw [h, h2]
  cases hst : env.setupOutcome with
  | error e => rfl
  | ok u =>
    cases u
    by_cases hb : (scrapePages env maxResults
        (totalPagesOf env.pagination maxPages).toNat 1 []).2 = true
    · rw [if_pos hb]
    · rw [if_neg hb]

/-- C10 (confirmed).  Once the Firefox driver has been created,
scrape_linkedin_search never propagates an exception: on every error
during navigation, pagination discovery or extraction it returns the
(possibly empty) list collected so far, and the driver is quit; the only
errors that escape to the caller are those of geckodriver acquisition,
which happens before the try block. -/
theorem scrape_linkedin_search_no_propagation (env : ScrapeEnv)
    (maxResults maxPages : Nat) :
    ((∃ e, (scrape_linkedin_search env maxResults maxPages).1 = Except.error e) →
      ∃ e, env.serviceOutcome = Except.error e) ∧
    (env.serviceOutcome = Except.ok () → env.driverOutcome = Except.ok () →
      (∃ leads, (scrape_linkedin_search env maxResults maxPages).1 = Except.ok leads) ∧
      (scrape_linkedin_search env maxResults maxPages).2 = true) := by
  constructor
  · rintro ⟨e, he⟩
    rcases scrape_shape env maxResults maxPages with ⟨e2, hs, _⟩ | ⟨leads, hok⟩
    · exact ⟨e2, hs⟩
    · rw [hok] at he
      exact Except.noConfusion he
  · intro h h2
    refine ⟨?_, scrape_quits env maxResults maxPages h h2⟩
    rcases scrape_shape env maxResults maxPages with ⟨e2, hs, _⟩ | hok
    · rw [h] at hs
      exact Except.noConfusion hs
    · exact hok

/-- Witness for C10: with geckodriver and the driver both acquired and
the first page's find_elements call raising, the call still returns a
list (the empty partial result) and quits the driver. -/
theorem scrape_linkedin_search_no_propagation_witness :
    (∃ leads,
      (scrape_linkedin_search
        ⟨Except.ok (), Except.ok (), Except.ok (), some 5,
          fun _ => Except.ok (), fun _ => ContentOutcome.findFail "boom"⟩
        50 1).1 = Except.ok leads) ∧
    (scrape_linkedin_search
        ⟨Except.ok (), Except.ok (), Except.ok (), some 5,
          fun _ => Except.ok (), fun _ => ContentOutcome.findFail "boom"⟩
        50 1).2 = true :=
  (scrape_linkedin_search_no_propagation
    ⟨Except.ok (), Except.ok (), Except.ok (), some 5,
      fun _ => Except.ok (), fun _ => ContentOutcome.findFail "boom"⟩
    50 1).2 rfl rfl

/-- A successful run_leads insert presupposes the key was absent and
appends exactly the new row. -/
theorem insertRunLead_ok_elim {rid : Nat} {sel : List String} {st : DBState}
    {lead : LeadInput} {st' : DBState}
    (h : insertRunLead rid sel st lead = .ok st') :
    hasLeadKey st rid lead.id = false ∧
      st'.runs = st.runs ∧ st'.nextRunId = st.nextRunId ∧
      st'.run_leads = st.run_leads ++ [leadRowOf rid sel st.nextLeadId lead] := by
  unfold insertRunLead at h
  by_cases hk : hasLeadKey st rid lead.id
  · rw [if_pos hk] at h
    exact Except.noConfusion h
  · rw [if_neg hk] at h
    have h2 := Except.ok.inj h
    subst h2
    exact ⟨by simpa using hk, rfl, rfl, rfl⟩

/-- A successful insert keeps every existing (run_id, lead_id) key and
establishes the inserted one. -/
theorem insertRunLead_ok_keys {rid : Nat} {sel : List String} {st : DBState}
    {lead : LeadInput} {st' : DBState}
    (h : insertRunLead rid sel st lead = .ok st') :
    hasLeadKey st' rid lead.id = true ∧
      ∀ k, hasLeadKey st rid k = true → hasLeadKey st' rid k = true := by
  obtain ⟨-, -, -, hl⟩ := insertRunLead_ok_elim h
  constructor
  · unfold hasLeadKey
    rw [hl]
    simp [leadRowOf]
  · intro k hk
    unfold hasLeadKey at hk ⊢
    rw [hl]
    simp only [List.any_append, Bool.or_eq_true]
    exact Or.inl hk

/-- The whole lead-insert loop leaves the runs table and the run-id
sequence alone and only adds rows for the inserted run. -/
theorem insertLeads_frame (rid : Nat) (sel : List String) :
    ∀ (leads : List LeadInput) (st st' : DBState),
      List.foldlM (insertRunLead rid sel) st leads = .ok st' →
      st'.runs = st.runs ∧ st'.nextRunId = st.nextRunId ∧
      ∀ rl ∈ st'.run_leads, rl ∈ st.run_leads ∨ rl.run_id = rid := by
  intro leads
  induction leads with
  | nil =>
      intro st st' h
      rw [List.foldlM_nil] at h
      have h2 := Except.ok.inj h
      subst h2
      exact ⟨rfl, rfl, fun rl hrl => Or.inl hrl⟩
  | cons x xs ih =>
      intro st st' h
      rw [List.foldlM_cons] at h
      cases hx : insertRunLead rid sel st x with
      | error e =>
          rw [hx] at h
          exact Except.noConfusion h
      | ok st1 =>
          rw [hx] at h
          obtain ⟨hr, hn, hl⟩ := ih st1 st' h
          obtain ⟨-, hr1, hn1, hl1⟩ := insertRunLead_ok_elim hx
          refine ⟨hr.trans hr1, hn.trans hn1, ?_⟩
          intro rl hrl
          rcases hl rl hrl with h3 | h3
          · rw [hl1] at h3
            rcases List.mem_append.mp h3 with h4 | h4
            · exact Or.inl h4
            · right
              rw [List.mem_singleton.mp h4]
              rfl
          · exact Or.inr h3

/-- When a (run_id, lead_id) key is already present, a loop that inserts
a lead with that id cannot succeed: every lead of a successful loop
avoids all keys present at its start. -/
theorem insertLeads_avoid (rid : Nat) (sel : List String) :
    ∀ (leads : List LeadInput) (st st' : DBState) (k : String),
      hasLeadKey st rid k = true →
      List.foldlM (insertRunLead rid sel) st leads = .ok st' →
      ∀ x ∈ leads, x.id ≠ k := by
  intro leads
  induction leads with
  | nil =>
      intro st st' k _ _ x hx
      cases hx
  | cons y ys ih =>
      intro st st' k hkey h x hx
      rw [List.foldlM_cons] at h
      cases hy : insertRunLead rid sel st y with
      | error e =>
          rw [hy] at h
          exact Except.noConfusion h
      | ok st1 =>
          rw [hy] at h
          obtain ⟨hk0, -, -, -⟩ := insertRunLead_ok_elim hy
          obtain ⟨-, hmono⟩ := insertRunLead_ok_keys hy
          rcases List.mem_cons.mp hx with rfl | hxs
          · intro hid
            rw [hid] at hk0
            rw [hkey] at hk0
            exact Bool.noConfusion hk0
          · exact ih st1 st' k (hmono k hkey) h x hxs

/-- A successful lead-insert loop implies the inserted lead ids were
pairwise distinct. -/
theorem insertLeads_nodup (rid : Nat) (sel : List String) :
    ∀ (leads : List LeadInput) (st st' : DBState),
      List.foldlM (insertRunLead rid sel) st leads = .ok st' →
      (leads.map LeadInput.id).Nodup := by
  intro leads
  induction leads with
  | nil =>
      intro st st' _
      simp
  | cons x xs ih =>
      intro st st' h
      rw [List.foldlM_cons] at h
      cases hx : insertRunLead rid sel st x with
      | error e =>
          rw [hx] at h
          exact Except.noConfusion h
      | ok st1 =>
          rw [hx] at h
          obtain ⟨hnew, -⟩ := insertRunLead_ok_keys hx
          have havoid := insertLeads_avoid rid sel xs st1 st' x.id hnew h
          rw [List.map_cons, List.nodup_cons]
          refine ⟨?_, ih st1 st' h⟩
          intro hmem
          obtain ⟨y, hy, hid⟩ := List.mem_map.mp hmem
          exact havoid y hy hid

/-- C1 (confirmed).  create_run is atomic: every call either returns the
new run id, or returns the re-raised error with the store exactly as it
was at entry (full rollback, no partially persisted run); and a lead list
whose ids contain a duplicate always takes the error path, leaving no
rows behind, because the second insert of the repeated (run_id, lead_id)
pair violates the UNIQUE constraint. -/
theorem create_run_atomic (run_label linkedin_url ai_criteria : String)
    (leads : List LeadInput) (selected_lead_ids : List String)
    (status : String) (error_message : Option String) (st : DBState) :
    ((∃ rid st', create_run run_label linkedin_url ai_criteria leads
        selected_lead_ids status error_message st = (.ok rid, st')) ∨
      (∃ e, create_run run_label linkedin_url ai_criteria leads
        selected_lead_ids status error_message st = (.error e, st))) ∧
    (¬ (leads.map LeadInput.id).Nodup →
      ∃ e, create_run run_label linkedin_url ai_criteria leads
        selected_lead_ids status error_message st = (.error e, st)) := by
  cases h : List.foldlM (insertRunLead st.nextRunId selected_lead_ids)
      (createRunInserted run_label linkedin_url ai_criteria leads
        selected_lead_ids status error_message st) leads with
  | error e =>
      constructor
      · right
        refine ⟨e, ?_⟩
        unfold create_run
        rw [h]
      · intro _
        refine ⟨e, ?_⟩
        unfold create_run
        rw [h]
  | ok st2 =>
      constructor
      · left
        refine ⟨st.nextRunId, st2, ?_⟩
        unfold create_run
        rw [h]
      · intro hnd
        exact absurd (insertLeads_nodup _ _ leads _ st2 h) hnd

/-- Witness for C1: a two-lead list sharing the id 'a' makes create_run
fail with the store unchanged. -/
theorem create_run_atomic_witness :
    ¬ (([LeadInput.blank "a", LeadInput.blank "a"]).map LeadInput.id).Nodup ∧
    ∃ e, create_run "label" "url" "crit"
        [LeadInput.blank "a", LeadInput.blank "a"] [] "success" none
        DBState.empty = (.error e, DBState.empty) :=
  ⟨by decide,
    (create_run_atomic "label" "url" "crit"
        [LeadInput.blank "a", LeadInput.blank "a"] [] "success" none
        DBState.empty).2 (by decide)⟩

/-- The runs table right after the runs INSERT of create_run. -/
theorem createRunInserted_runs (l u c : String) (leads : List LeadInput)
    (sel : List String) (s : String) (e : Option String) (st : DBState) :
    (createRunInserted l u c leads sel s e st).runs =
      st.runs ++ [⟨st.nextRunId, l, u, c, leads.length, sel.length, s, e⟩] := rfl

/-- The runs INSERT leaves run_leads alone. -/
theorem createRunInserted_run_leads (l u c : String) (leads : List LeadInput)
    (sel : List String) (s : String) (e : Option String) (st : DBState) :
    (createRunInserted l u c leads sel s e st).run_leads = st.run_leads := rfl

/-- The runs INSERT advances the run-id sequence by one. -/
theorem createRunInserted_nextRunId (l u c : String) (leads : List LeadInput)
    (sel : List String) (s : String) (e : Option String) (st : DBState) :
    (createRunInserted l u c leads sel s e st).nextRunId = st.nextRunId + 1 := rfl

/-- create_run keeps RunsInvariant and FreshIds whenever the caller hands
it no more selected ids than leads, and an empty lead list when the
status is failed. -/
theorem create_run_preserves (l u c : String) (leads : List LeadInput)
    (sel : List String) (status : String) (errMsg : Option String)
    (st : DBState)
    (hinv : RunsInvariant st) (hfresh : FreshIds st)
    (hsel : sel.length ≤ leads.length)
    (hfail : status = "failed" → leads = []) :
    RunsInvariant (create_run l u c leads sel status errMsg st).2 ∧
      FreshIds (create_run l u c leads sel status errMsg st).2 := by
  cases h : List.foldlM (insertRunLead st.nextRunId sel)
      (createRunInserted l u c leads sel status errMsg st) leads with
  | error e =>
      have h2 : (create_run l u c leads sel status errMsg st).2 = st := by
        unfold create_run
        rw [h]
      rw [h2]
      exact ⟨hinv, hfresh⟩
  | ok st2 =>
      have h2 : (create_run l u c leads sel status errMsg st).2 = st2 := by
        unfold create_run
        rw [h]
      rw [h2]
      obtain ⟨hruns, hnext, hleads⟩ := insertLeads_frame _ _ leads _ st2 h
      rw [createRunInserted_runs] at hruns
      rw [createRunInserted_nextRunId] at hnext
      have hleads2 : ∀ rl ∈ st2.run_leads,
          rl ∈ st.run_leads ∨ rl.run_id = st.nextRunId := by
        intro rl hrl
        rcases hleads rl hrl with h3 | h3
        · rw [createRunInserted_run_leads] at h3
          exact Or.inl h3
        · exact Or.inr h3
      constructor
      · intro r hr
        rw [hruns] at hr
        rcases List.mem_append.mp hr with hold | hnew
        · refine ⟨(hinv r hold).1, fun hf => ⟨((hinv r hold).2 hf).1, ?_⟩⟩
          intro rl hrl
          rcases hleads2 rl hrl with h3 | h3
          · exact ((hinv r hold).2 hf).2 rl h3
          · rw [h3]
            exact (ne_of_lt (hfresh.1 r hold)).symm
        · have hr2 := List.mem_singleton.mp hnew
          subst hr2
          refine ⟨hsel, fun hf => ?_⟩
          have hl0 : leads = [] := hfail hf
          subst hl0
          rw [List.foldlM_nil] at h
          have h4 := Except.ok.inj h
          subst h4
          refine ⟨rfl, ?_⟩
          intro rl hrl
          rw [createRunInserted_run_leads] at hrl
          exact ne_of_lt (hfresh.2 rl hrl)
      · constructor
        · intro r hr
          rw [hruns] at hr
          rw [hnext]
          rcases List.mem_append.mp hr with hold | hnew
          · exact Nat.lt_succ_of_lt (hfresh.1 r hold)
          · rw [List.mem_singleton.mp hnew]
            exact Nat.lt_succ_self st.nextRunId
        · intro rl hrl
          rw [hnext]
          rcases hleads2 rl hrl with h3 | h3
          · exact Nat.lt_succ_of_lt (hfresh.2 rl h3)
          · rw [h3]
            exact Nat.lt_succ_self st.nextRunId

/-- The two is_selected UPDATEs never change a row's run_id. -/
theorem mem_markClear_run_id (run_id : Nat) (sel : List String)
    (rls : List LeadRow) :
    ∀ rl' ∈ markSelected run_id sel (clearSelected run_id rls),
      ∃ rl ∈ rls, rl'.run_id = rl.run_id := by
  have aux1 : ∀ x : LeadRow,
      ((if x.run_id = run_id ∧ sel.contains x.lead_id then
          { x with is_selected := true } else x) : LeadRow).run_id = x.run_id := by
    intro x
    split <;> rfl
  have aux2 : ∀ x : LeadRow,
      ((if x.run_id = run_id then { x with is_selected := false } else x) :
        LeadRow).run_id = x.run_id := by
    intro x
    split <;> rfl
  intro rl' h
  unfold markSelected at h
  by_cases hse : sel.isEmpty
  · rw [if_pos hse] at h
    unfold clearSelected at h
    obtain ⟨rl, hrl, hEq⟩ := List.mem_map.mp h
    refine ⟨rl, hrl, ?_⟩
    rw [← hEq]
    exact aux2 rl
  · rw [if_neg hse] at h
    obtain ⟨rl1, hrl1, hEq1⟩ := List.mem_map.mp h
    unfold clearSelected at hrl1
    obtain ⟨rl, hrl, hEq⟩ := List.mem_map.mp hrl1
    refine ⟨rl, hrl, ?_⟩
    rw [← hEq1, aux1 rl1, ← hEq]
    exact aux2 rl

/-- update_run_selections keeps RunsInvariant and FreshIds whenever the
caller hands it no more selected ids than the run's total_leads. -/
theorem update_run_selections_preserves (run_id : Nat) (sel : List String)
    (st : DBState)
    (hinv : RunsInvariant st) (hfresh : FreshIds st)
    (hguard : ∀ r ∈ st.runs, r.id = run_id → sel.length ≤ r.total_leads) :
    RunsInvariant (update_run_selections run_id sel st).2 ∧
      FreshIds (update_run_selections run_id sel st).2 := by
  have hruns : (update_run_selections run_id sel st).2.runs =
      setSelectedCount run_id sel.length st.runs := rfl
  have hleads : (update_run_selections run_id sel st).2.run_leads =
      markSelected run_id sel (clearSelected run_id st.run_leads) := rfl
  have hnext : (update_run_selections run_id sel st).2.nextRunId =
      st.nextRunId := rfl
  constructor
  · intro r' hr'
    rw [hruns] at hr'
    unfold setSelectedCount at hr'
    obtain ⟨r, hr, hEq⟩ := List.mem_map.mp hr'
    by_cases hid : r.id = run_id
    · rw [if_pos hid] at hEq
      subst hEq
      refine ⟨hguard r hr hid, fun hf => ⟨((hinv r hr).2 hf).1, ?_⟩⟩
      intro rl' hrl'
      rw [hleads] at hrl'
      obtain ⟨rl, hrl2, hEq2⟩ := mem_markClear_run_id run_id sel st.run_leads rl' hrl'
      rw [hEq2]
      exact ((hinv r hr).2 hf).2 rl hrl2
    · rw [if_neg hid] at hEq
      subst hEq
      refine ⟨(hinv r hr).1, fun hf => ⟨((hinv r hr).2 hf).1, ?_⟩⟩
      intro rl' hrl'
      rw [hleads] at hrl'
      obtain ⟨rl, hrl2, hEq2⟩ := mem_markClear_run_id run_id sel st.run_leads rl' hrl'
      rw [hEq2]
      exact ((hinv r hr).2 hf).2 rl hrl2
  · constructor
    · intro r' hr'
      rw [hruns] at hr'
      unfold setSelectedCount at hr'
      obtain ⟨r, hr, hEq⟩ := List.mem_map.mp hr'
      rw [hnext]
      have hid : r'.id = r.id := by
        rw [← hEq]
        split <;> rfl
      rw [hid]
      exact hfresh.1 r hr
    · intro rl' hrl'
      rw [hleads] at hrl'
      rw [hnext]
      obtain ⟨rl, hrl2, hEq2⟩ := mem_markClear_run_id run_id sel st.run_leads rl' hrl'
      rw [hEq2]
      exact hfresh.2 rl hrl2

/-- Every guarded operation keeps the invariant and the freshness
bookkeeping; hence so does any guarded sequence. -/
theorem goodOps_preserves : ∀ (ops : List DbOp) (st : DBState),
    RunsInvariant st → FreshIds st → GoodOps st ops →
    RunsInvariant (applyOps st ops) ∧ FreshIds (applyOps st ops) := by
  intro ops
  induction ops with
  | nil =>
      intro st h1 h2 _
      exact ⟨h1, h2⟩
  | cons op rest ih =>
      intro st h1 h2 hg
      have hg2 : GoodOp st op ∧ GoodOps (applyOp st op) rest := hg
      have happ : applyOps st (op :: rest) = applyOps (applyOp st op) rest := rfl
      rw [happ]
      have step : RunsInvariant (applyOp st op) ∧ FreshIds (applyOp st op) := by
        cases op with
        | createRun l u c leads sel status err =>
            have hx : sel.length ≤ leads.length ∧
                (status = "failed" → leads = []) := hg2.1
            exact create_run_preserves l u c leads sel status err st h1 h2
              hx.1 hx.2
        | createFailedRun l u c err =>
            exact create_run_preserves l u c [] [] "failed" (some err) st h1 h2
              (Nat.le_refl 0) (fun _ => rfl)
        | updateRunSelections rid sel =>
            have hx : ∀ r ∈ st.runs, r.id = rid → sel.length ≤ r.total_leads :=
              hg2.1
            exact update_run_selections_preserves rid sel st h1 h2 hx
      exact ih (applyOp st op) step.1 step.2 hg2.2

/-- C3 counterexample.  The invariant does not survive a caller that
supplies selected ids absent from the lead list: create_run with no leads
and one selected id persists a run with selected_leads = 1 and
total_leads = 0, because the stored counters are just
len(selected_lead_ids) and len(leads). -/
theorem runs_invariant_cex :
    ∃ r ∈ (applyOps DBState.empty
        [DbOp.createRun "l" "u" "c" [] ["x"] "success" none]).runs,
      r.total_leads < r.selected_leads := by
  decide

/-- C3 (corrected).  The invariant selected_leads ≤ total_leads (with
failed runs having total_leads = 0 and no run_leads rows) holds for every
store reachable from the empty store by CreateRun, CreateFailedRun and
UpdateRunSelections, provided every CreateRun call supplies at most as
many selected ids as leads (and an empty lead list when status is
failed) and every UpdateRunSelections call supplies at most as many
selected ids as the run's total_leads — it does not survive callers that
pass selected ids beyond the run's leads. -/
theorem runs_invariant_guarded (ops : List DbOp)
    (h : GoodOps DBState.empty ops) :
    RunsInvariant (applyOps DBState.empty ops) := by
  have h1 : RunsInvariant DBState.empty := by
    intro r hr
    cases hr
  have h2 : FreshIds DBState.empty := by
    constructor
    · intro r hr
      cases hr
    · intro rl hrl
      cases hrl
  exact (goodOps_preserves ops DBState.empty h1 h2 h).1

/-- Witness for C3: a guarded run creation, selection update and failed
run keep the invariant. -/
theorem runs_invariant_guarded_witness :
    GoodOps DBState.empty
      [DbOp.createRun "l" "u" "c" [LeadInput.blank "a"] ["a"] "success" none,
        DbOp.updateRunSelections 1 ["a"],
        DbOp.createFailedRun "l2" "u2" "c2" "boom"] ∧
    RunsInvariant (applyOps DBState.empty
      [DbOp.createRun "l" "u" "c" [LeadInput.blank "a"] ["a"] "success" none,
        DbOp.updateRunSelections 1 ["a"],
        DbOp.createFailedRun "l2" "u2" "c2" "boom"]) :=
  ⟨by decide, runs_invariant_guarded _ (by decide)⟩

end Siftin
